import Mathlib

/-!
Shallow embedding of the gulp_mlips calculation protocol and result-encoding
layer: the `.drv` derivative-file codec (`src/gulp_mlips/formats/drv.py`),
the calculator-backend variants (`src/gulp_mlips/backends/{base,gfnff,gulp,
petmad}.py`) and the host request handling (`src/gulp_mlips/host.py`).

Machine reals (Python floats) are modelled as rationals; negation and the
componentwise products the codec performs are exact in both models.
-/

namespace GulpMlips

/-- A 3-vector of reals (Python: a row of an Nx3 numpy array, or a 3-list). -/
abbrev Vec3 := ℚ × ℚ × ℚ

/-- A 3x3 matrix, row major (Python: a 3x3 numpy array such as a cell matrix). -/
structure Mat3 where
  a00 : ℚ
  a01 : ℚ
  a02 : ℚ
  a10 : ℚ
  a11 : ℚ
  a12 : ℚ
  a20 : ℚ
  a21 : ℚ
  a22 : ℚ
deriving DecidableEq, Repr

/-- Determinant of a 3x3 matrix (numpy.linalg.det, exact over rationals). -/
def Mat3.det (m : Mat3) : ℚ :=
  m.a00 * (m.a11 * m.a22 - m.a12 * m.a21)
    - m.a01 * (m.a10 * m.a22 - m.a12 * m.a20)
    + m.a02 * (m.a10 * m.a21 - m.a11 * m.a20)

/-- The ASE `Atoms` object as the repository uses it: per-atom atomic
numbers and Cartesian positions, an optional cell matrix and the
periodic-boundary flags (ASE default: all false). -/
structure Atoms where
  numbers : List ℕ
  positions : List Vec3
  cell : Option Mat3
  pbc : Bool × Bool × Bool
deriving DecidableEq, Repr

/-- Python `len(atoms)`: the number of atoms (length of the positions array). -/
def Atoms.len (a : Atoms) : ℕ := a.positions.length

/-- ASE `atoms.get_volume()`: absolute determinant of the cell matrix
(zero when no cell is set). -/
def Atoms.volume (a : Atoms) : ℚ :=
  match a.cell with
  | some c => |c.det|
  | none => 0

/-- Python `any(atoms.get_pbc())`. -/
def Atoms.anyPbc (a : Atoms) : Bool := a.pbc.1 || a.pbc.2.1 || a.pbc.2.2

/-! ## The `.drv` codec (src/gulp_mlips/formats/drv.py)

The file content is modelled as the list of lines `write_drv` emits, one
constructor per `f.write` call, carrying the numeric values that the
Python code formats into each fixed-width field. -/

/-- One line of a `.drv` file, in the order and with the fields that
`write_drv` writes. -/
inductive DrvLine
  /-- `energy {value:30.10f} eV` -/
  | energyLine (e : ℚ)
  /-- `coordinates cartesian Angstroms {natoms:6d}` -/
  | coordHeader (n : ℕ)
  /-- `{i:6d} {Z:3d} {x:15.8f} {y:15.8f} {z:15.8f}` -/
  | coordRow (i z : ℕ) (x y zc : ℚ)
  /-- `gradients cartesian eV/Ang {natoms:6d}` -/
  | gradHeader (n : ℕ)
  /-- `{i:6d} {gx:15.8f} {gy:15.8f} {gz:15.8f}` -/
  | gradRow (i : ℕ) (gx gy gz : ℚ)
  /-- `gradients strain eV` -/
  | strainHeader
  /-- ` {a:15.8f} {b:15.8f} {c:15.8f}` -/
  | strainRow (a b c : ℚ)
deriving DecidableEq, Repr

/-- The `stress` argument of `write_drv`: either a 6-component Voigt vector
(`len(stress) == 6` branch) or a 3x3 matrix (the `else` branch). -/
inductive StressArg
  | voigt6 (s0 s1 s2 s3 s4 s5 : ℚ)
  | full3x3 (m : Mat3)
deriving DecidableEq, Repr

/-- The numpy shape check `forces.shape == (natoms, 3)` for a forces value
modelled as a list of rows. -/
def forcesShapeOk (natoms : ℕ) (forces : List (List ℚ)) : Bool :=
  forces.length == natoms && forces.all (fun r => r.length == 3)

/-- Coordinate rows: `for i, (Z, pos) in enumerate(zip(atomic_numbers,
positions), start=1)`. -/
def coordLinesAux (i : ℕ) : List (ℕ × Vec3) → List DrvLine
  | [] => []
  | (z, (x, y, zc)) :: rest => .coordRow i z x y zc :: coordLinesAux (i + 1) rest

/-- Gradient rows: `gradients = -forces`, then
`for i, grad in enumerate(gradients, start=1)` writing `grad[0..2]`.
Row components are read by index; the shape check guarantees length 3. -/
def gradLinesAux (i : ℕ) : List (List ℚ) → List DrvLine
  | [] => []
  | r :: rest =>
      .gradRow i (-(r.getD 0 0)) (-(r.getD 1 0)) (-(r.getD 2 0)) :: gradLinesAux (i + 1) rest

/-- The strain-gradient section: emitted only when `stress is not None`;
`strain_grad = -stress * volume`, diagonal row then off-diagonal row
(Voigt order xx, yy, zz, yz, xz, xy; for a 3x3 argument, entries
(0,0),(1,1),(2,2) then (1,2),(0,2),(0,1)). -/
def strainLines (atoms : Atoms) : Option StressArg → List DrvLine
  | none => []
  | some (.voigt6 s0 s1 s2 s3 s4 s5) =>
      [.strainHeader,
       .strainRow (-s0 * atoms.volume) (-s1 * atoms.volume) (-s2 * atoms.volume),
       .strainRow (-s3 * atoms.volume) (-s4 * atoms.volume) (-s5 * atoms.volume)]
  | some (.full3x3 m) =>
      [.strainHeader,
       .strainRow (-m.a00 * atoms.volume) (-m.a11 * atoms.volume) (-m.a22 * atoms.volume),
       .strainRow (-m.a12 * atoms.volume) (-m.a02 * atoms.volume) (-m.a01 * atoms.volume)]

/-- Content of the `.drv` file that `write_drv` produces: the shape check
(raising `ValueError` on mismatch, before the file is opened), then the
energy line, the coordinates section, the gradients section, and the
optional strain-gradient section, in source order. -/
def drvContent (atoms : Atoms) (energy : ℚ) (forces : List (List ℚ))
    (stress : Option StressArg) : Except String (List DrvLine) :=
  if forcesShapeOk atoms.len forces then
    .ok ([DrvLine.energyLine energy, .coordHeader atoms.len]
      ++ coordLinesAux 1 (atoms.numbers.zip atoms.positions)
      ++ [.gradHeader atoms.len]
      ++ gradLinesAux 1 forces
      ++ strainLines atoms stress)
  else
    .error "Forces shape does not match number of atoms"

/-- A file system mapping paths to file contents (the only files the codec
touches are `.drv` files, so content is a line list). -/
def FS := String → Option (List DrvLine)

/-- Writing a file: `open(filepath, 'w')` followed by the writes and an
fsync, modelled as replacing the content at the path. -/
def FS.write (fs : FS) (p : String) (c : List DrvLine) : FS :=
  fun q => if q = p then some c else fs q

/-- `write_drv(filepath, atoms, energy, forces, stress)`: on a shape
mismatch the `ValueError` is raised before `open`, so the file system is
untouched; otherwise the full content is written (and flushed/fsynced)
at the path. -/
def write_drv (fs : FS) (filepath : String) (atoms : Atoms) (energy : ℚ)
    (forces : List (List ℚ)) (stress : Option StressArg) :
    FS × Except String Unit :=
  match drvContent atoms energy forces stress with
  | .ok lines => (fs.write filepath lines, .ok ())
  | .error m => (fs, .error m)

/-- `format_drv_string(atoms, energy, forces, stress)`: writes via
`write_drv` to a fresh temporary path, reads the file back and returns its
content (the temporary file is unlinked afterwards, which does not affect
the returned value). An exception from `write_drv` propagates. -/
def format_drv_string (fs : FS) (tmpPath : String) (atoms : Atoms) (energy : ℚ)
    (forces : List (List ℚ)) (stress : Option StressArg) :
    Except String (List DrvLine) :=
  match write_drv fs tmpPath atoms energy forces stress with
  | (fs2, .ok _) =>
      match fs2 tmpPath with
      | some c => .ok c
      | none => .error "temporary file missing"
  | (_, .error m) => .error m

/-! ## Backends (src/gulp_mlips/backends/)

Each variant's mutable state is a structure; the ASE calculator objects
constructed during `load()` are modelled by fresh identifiers drawn from an
allocation counter, so that "a new calculator instance was constructed"
is visible as a state change. The physics itself (ASE's
`get_potential_energy` / `get_forces` / `get_stress` on an attached
calculator) lives outside this repository and is a parameter (`Oracle`);
`get_stress` may raise, which the gfnff/gulp variants catch. -/

/-- A 6-component stress vector in Voigt order (xx, yy, zz, yz, xz, xy). -/
structure Stress6 where
  xx : ℚ
  yy : ℚ
  zz : ℚ
  yz : ℚ
  xz : ℚ
  xy : ℚ
deriving DecidableEq, Repr

/-- `np.zeros(6)` as a Voigt stress vector. -/
def zeros6 : Stress6 := ⟨0, 0, 0, 0, 0, 0⟩

/-- The external ASE computation behind an attached calculator:
`atoms.get_potential_energy()`, `atoms.get_forces()` and
`atoms.get_stress(voigt=True)`, the last of which may raise (the message
is the raised exception's text). -/
structure Oracle where
  energy : Atoms → ℚ
  forces : Atoms → List (List ℚ)
  stress : Atoms → Except String Stress6

/-- Errors a backend `calculate` can raise: the not-loaded guard's
`RuntimeError`, or an exception propagating out of an ASE call. -/
inductive CalcError
  | notLoaded (msg : String)
  | fromOracle (msg : String)
deriving DecidableEq, Repr

/-- The value stored under the `"stress"` key of the results dict:
the key may be absent, present with value `None`, or present with a
6-component vector. -/
inductive SEntry
  | absent
  | nullVal
  | val (s : Stress6)
deriving DecidableEq, Repr

/-- The results dictionary a backend `calculate` returns. -/
structure CalcResults where
  energy : Option ℚ
  forces : Option (List (List ℚ))
  stress : SEntry
deriving DecidableEq, Repr

/-- The stress entry of a successful calculation (none when the call
raised). -/
def stressOf : Except CalcError CalcResults → Option SEntry
  | .ok r => some r.stress
  | .error _ => none

/-- Message of the not-loaded guard in `CalculatorBackend.calculate`. -/
def baseNotLoadedMsg : String := "Calculator not loaded. Call load() first."

/-- Message of the not-loaded guard in the gfnff and gulp `calculate`. -/
def backendNotLoadedMsg : String := "Backend not loaded. Call load() first."

/-- `CalculatorBackend.calculate` (base.py lines 64-110): guard on
`is_loaded()` (i.e. `self.calculator is not None`), then compute each
requested property; for `"stress"` on a non-periodic structure the key is
set to `None`, and an exception from `get_stress` propagates uncaught. -/
def baseCalculate (calculator : Option ℕ) (oracle : Oracle) (atoms : Atoms)
    (properties : List String) : Except CalcError CalcResults :=
  match calculator with
  | none => .error (.notLoaded baseNotLoadedMsg)
  | some _ =>
      let e := if properties.contains "energy" then some (oracle.energy atoms) else none
      let fo := if properties.contains "forces" then some (oracle.forces atoms) else none
      if properties.contains "stress" then
        if atoms.anyPbc then
          match oracle.stress atoms with
          | .ok s => .ok ⟨e, fo, .val s⟩
          | .error m => .error (.fromOracle m)
        else .ok ⟨e, fo, .nullVal⟩
      else .ok ⟨e, fo, .absent⟩

/-- State of `GFNFFBackend`: configuration, the `_loaded` flag and the
`_calculator` slot, plus the allocation counter for fresh XTB instances. -/
structure GFNFFBackend where
  method : String
  loaded : Bool
  calculator : Option ℕ
  alloc : ℕ
deriving DecidableEq, Repr

/-- `GFNFFBackend.load` (gfnff.py lines 68-99): early return when already
loaded; `ImportError` when the xTB package is absent; otherwise a fresh
`XTB(...)` calculator is constructed and `_loaded` set. -/
def GFNFFBackend.load (xtbAvailable : Bool) (s : GFNFFBackend) :
    Except String GFNFFBackend :=
  if s.loaded then .ok s
  else if ¬ xtbAvailable then .error "xTB calculator not available"
  else .ok { s with calculator := some s.alloc, alloc := s.alloc + 1, loaded := true }

/-- `GFNFFBackend.calculate` (gfnff.py lines 113-162): guard on `_loaded`;
default properties `['energy', 'forces']`; for `"stress"`, a periodic
structure gets `get_stress` with a zero-vector fallback on exception
(logged), and a non-periodic structure gets a zero vector outright. -/
def GFNFFBackend.calculate (s : GFNFFBackend) (oracle : Oracle) (atoms : Atoms)
    (properties : Option (List String)) : Except CalcError CalcResults :=
  if ¬ s.loaded then .error (.notLoaded backendNotLoadedMsg)
  else
    let props := properties.getD ["energy", "forces"]
    let e := if props.contains "energy" then some (oracle.energy atoms) else none
    let fo := if props.contains "forces" then some (oracle.forces atoms) else none
    let st :=
      if props.contains "stress" then
        if atoms.anyPbc then
          match oracle.stress atoms with
          | .ok v => SEntry.val v
          | .error _ => SEntry.val zeros6
        else SEntry.val zeros6
      else SEntry.absent
    .ok ⟨e, fo, st⟩

/-- Environment `GULPBackend.load` probes: `shutil.which(gulp_command)`
and the existence of `gulp_drv_calculator.py` at the project root. -/
structure GulpEnv where
  gulpOnPath : Bool
  drvCalculatorFileExists : Bool

/-- State of `GULPBackend`: keywords string, `_loaded` flag, `_temp_dir`,
the calculator slot and the allocation counter for fresh resources. -/
structure GULPBackend where
  keywords : String
  loaded : Bool
  tempDir : Option ℕ
  calculator : Option ℕ
  alloc : ℕ
deriving DecidableEq, Repr

/-- `GULPBackend.load` (gulp.py lines 63-126): early return when already
loaded; error when the GULP executable is not on the path or the
`gulp_drv_calculator.py` module file is missing; otherwise a fresh temp
directory and a fresh `GULPDrvCalculator` are created and `_loaded` set. -/
def GULPBackend.load (env : GulpEnv) (s : GULPBackend) :
    Except String GULPBackend :=
  if s.loaded then .ok s
  else if ¬ env.gulpOnPath then .error "GULP not found"
  else if ¬ env.drvCalculatorFileExists then .error "gulp_drv_calculator.py not found"
  else .ok { s with tempDir := some s.alloc, calculator := some (s.alloc + 1),
                    alloc := s.alloc + 2, loaded := true }

/-- Python `'stress' in self.keywords.lower()`: substring containment. -/
def keywordsHasStress (k : String) : Bool :=
  (k.toLower.splitOn "stress").length != 1

/-- `GULPBackend.calculate` (gulp.py lines 128-177): guard on `_loaded`;
default properties `['energy', 'forces']`; stress is computed only when the
structure is periodic AND `'stress'` occurs in the keywords (with a logged
zero fallback on exception); otherwise a zero vector is stored. -/
def GULPBackend.calculate (s : GULPBackend) (oracle : Oracle) (atoms : Atoms)
    (properties : Option (List String)) : Except CalcError CalcResults :=
  if ¬ s.loaded then .error (.notLoaded backendNotLoadedMsg)
  else
    let props := properties.getD ["energy", "forces"]
    let e := if props.contains "energy" then some (oracle.energy atoms) else none
    let fo := if props.contains "forces" then some (oracle.forces atoms) else none
    let st :=
      if props.contains "stress" then
        if atoms.anyPbc && keywordsHasStress s.keywords then
          match oracle.stress atoms with
          | .ok v => SEntry.val v
          | .error _ => SEntry.val zeros6
        else SEntry.val zeros6
      else SEntry.absent
    .ok ⟨e, fo, st⟩

/-- State of `PETMADBackend`: configuration, the inherited `calculator`
slot and the allocation counter for fresh `PETMADCalculator` instances. -/
structure PETMADBackend where
  version : String
  device : String
  calculator : Option ℕ
  alloc : ℕ
deriving DecidableEq, Repr

/-- `PETMADBackend.load` (petmad.py lines 33-57): no already-loaded guard —
every call re-imports and constructs a fresh `PETMADCalculator`, storing it
in `self.calculator`. `ImportError` when pet-mad is absent; `RuntimeError`
when construction fails. -/
def PETMADBackend.load (petmadAvailable ctorSucceeds : Bool) (s : PETMADBackend) :
    Except String PETMADBackend :=
  if ¬ petmadAvailable then .error "pet-mad package not installed"
  else if ¬ ctorSucceeds then .error "Failed to load PET-MAD calculator"
  else .ok { s with calculator := some s.alloc, alloc := s.alloc + 1 }

/-! ## Host request handling (src/gulp_mlips/host.py) -/

/-- The wire-protocol `AtomicStructure` pydantic model: symbols, positions,
optional cell, optional pbc flags. -/
structure AtomicStructure where
  symbols : List String
  positions : List Vec3
  cell : Option Mat3
  pbc : Option (Bool × Bool × Bool)
deriving DecidableEq, Repr

/-- Construction of the ASE `Atoms` in the `/calculate` handler (host.py
lines 129-142): `Atoms(symbols, positions)` (pbc defaults to all false),
then `set_cell` when a cell is given, then `set_pbc(pbc)` when pbc is
given, else `set_pbc(True)` — broadcast to (true, true, true) — when a
cell is given. `symToZ` is ASE's symbol-to-atomic-number table (external
to this repository). -/
def buildAtoms (symToZ : String → ℕ) (r : AtomicStructure) : Atoms :=
  { numbers := r.symbols.map symToZ
    positions := r.positions
    cell := r.cell
    pbc :=
      match r.pbc with
      | some p => p
      | none => if r.cell.isSome then (true, true, true) else (false, false, false) }

/-! ## Extraction helpers for the `.drv` line model -/

/-- The gradient rows of a line list, in order, as (index, gx, gy, gz). -/
def gradRowsOf (lines : List DrvLine) : List (ℕ × ℚ × ℚ × ℚ) :=
  lines.filterMap (fun l =>
    match l with
    | .gradRow i x y z => some (i, x, y, z)
    | _ => none)

/-- The strain-gradient rows of a line list, in order. -/
def strainRowsOf (lines : List DrvLine) : List (ℚ × ℚ × ℚ) :=
  lines.filterMap (fun l =>
    match l with
    | .strainRow a b c => some (a, b, c)
    | _ => none)

/-! ## Concrete fixtures (used by witnesses and counterexamples) -/

/-- An empty file system. -/
def fsEmpty : FS := fun _ => none

/-- A single carbon atom, no cell, non-periodic. -/
def atomsFree : Atoms := ⟨[6], [(0, 0, 0)], none, (false, false, false)⟩

/-- A single oxygen atom in a cubic 4 Å cell (volume 64 Å³), periodic. -/
def atomsCell4 : Atoms :=
  ⟨[8], [(0, 0, 0)], some ⟨4, 0, 0, 0, 4, 0, 0, 0, 4⟩, (true, true, true)⟩

/-- Expected `.drv` content for `atomsFree`, energy 5/2, forces [[1,-2,3]]. -/
def w1Lines : List DrvLine :=
  [.energyLine (5 / 2), .coordHeader 1, .coordRow 1 6 0 0 0,
   .gradHeader 1, .gradRow 1 (-1) 2 (-3)]

/-- Expected `.drv` content for `atomsCell4`, energy 0, zero forces and
Voigt stress (1,2,3,4,5,6) / 1000: the end-to-end scenario with
volume 64 and strain-gradient rows (-0.064,-0.128,-0.192) and
(-0.256,-0.320,-0.384). -/
def w2Lines : List DrvLine :=
  [.energyLine 0, .coordHeader 1, .coordRow 1 8 0 0 0,
   .gradHeader 1, .gradRow 1 0 0 0,
   .strainHeader,
   .strainRow (-(64 / 1000)) (-(128 / 1000)) (-(192 / 1000)),
   .strainRow (-(256 / 1000)) (-(320 / 1000)) (-(384 / 1000))]

/-- A trivial external computation: zero energy, no forces, zero stress. -/
def oracleZero : Oracle :=
  ⟨fun _ => 0, fun _ => [], fun _ => .ok zeros6⟩

/-- A GFN-FF backend state after a successful `load()`. -/
def gfnffLoaded : GFNFFBackend := ⟨"GFN-FF", true, some 0, 1⟩

/-- A GULP backend state after a successful `load()` (default keywords). -/
def gulpLoaded : GULPBackend := ⟨"conp gradient", true, some 0, some 1, 2⟩

/-- A freshly constructed PET-MAD backend (never loaded). -/
def petmad0 : PETMADBackend := ⟨"latest", "cpu", none, 0⟩

/-- The PET-MAD backend after one successful `load()`. -/
def petmad1 : PETMADBackend := ⟨"latest", "cpu", some 0, 1⟩

/-- A wire request with a cell but no explicit pbc field. -/
def reqCellOnly : AtomicStructure :=
  ⟨["Si"], [(0, 0, 0)], some ⟨4, 0, 0, 0, 4, 0, 0, 0, 4⟩, none⟩

/-- A wire request with a cell and an explicit pbc field. -/
def reqExplicitPbc : AtomicStructure :=
  ⟨["Si"], [(0, 0, 0)], some ⟨4, 0, 0, 0, 4, 0, 0, 0, 4⟩, some (false, true, false)⟩

lemma gradRowsOf_append (a b : List DrvLine) :
    gradRowsOf (a ++ b) = gradRowsOf a ++ gradRowsOf b := by
  simp [gradRowsOf, List.filterMap_append]

lemma strainRowsOf_append (a b : List DrvLine) :
    strainRowsOf (a ++ b) = strainRowsOf a ++ strainRowsOf b := by
  simp [strainRowsOf, List.filterMap_append]

lemma gradRowsOf_coordLinesAux (j : ℕ) (l : List (ℕ × Vec3)) :
    gradRowsOf (coordLinesAux j l) = [] := by
  induction l generalizing j with
  | nil => rfl
  | cons p rest ih =>
      obtain ⟨z, x, y, zc⟩ := p
      simpa [coordLinesAux, gradRowsOf, List.filterMap_cons] using ih (j + 1)

lemma strainRowsOf_coordLinesAux (j : ℕ) (l : List (ℕ × Vec3)) :
    strainRowsOf (coordLinesAux j l) = [] := by
  induction l generalizing j with
  | nil => rfl
  | cons p rest ih =>
      obtain ⟨z, x, y, zc⟩ := p
      simpa [coordLinesAux, strainRowsOf, List.filterMap_cons] using ih (j + 1)

lemma strainRowsOf_gradLinesAux (j : ℕ) (fs : List (List ℚ)) :
    strainRowsOf (gradLinesAux j fs) = [] := by
  induction fs generalizing j with
  | nil => rfl
  | cons r rest ih =>
      simpa [gradLinesAux, strainRowsOf, List.filterMap_cons] using ih (j + 1)

lemma gradRowsOf_strainLines (atoms : Atoms) (stress : Option StressArg) :
    gradRowsOf (strainLines atoms stress) = [] := by
  cases stress with
  | none => rfl
  | some s => cases s <;> rfl

lemma gradRowsOf_gradLinesAux_length (j : ℕ) (fs : List (List ℚ)) :
    (gradRowsOf (gradLinesAux j fs)).length = fs.length := by
  induction fs generalizing j with
  | nil => rfl
  | cons r rest ih =>
      simpa [gradLinesAux, gradRowsOf, List.filterMap_cons] using ih (j + 1)

lemma gradRowsOf_gradLinesAux_get? (j k : ℕ) (fs : List (List ℚ)) (r : List ℚ)
    (h : fs.get? k = some r) :
    (gradRowsOf (gradLinesAux j fs)).get? k =
      some (j + k, -(r.getD 0 0), -(r.getD 1 0), -(r.getD 2 0)) := by
  induction fs generalizing j k with
  | nil => simp at h
  | cons a rest ih =>
      cases k with
      | zero =>
          simp at h
          subst h
          simp [gradLinesAux, gradRowsOf, List.filterMap_cons]
      | succ k2 =>
          simp only [List.get?_cons_succ] at h
          have h2 := ih (j + 1) k2 h
          rw [show j + (k2 + 1) = (j + 1) + k2 by omega]
          simpa [gradLinesAux, gradRowsOf, List.filterMap_cons] using h2

lemma strainHeader_not_mem_coordLinesAux (j : ℕ) (l : List (ℕ × Vec3)) :
    DrvLine.strainHeader ∉ coordLinesAux j l := by
  induction l generalizing j with
  | nil => simp [coordLinesAux]
  | cons p rest ih =>
      obtain ⟨z, x, y, zc⟩ := p
      simp [coordLinesAux]
      exact ih (j + 1)

lemma strainHeader_not_mem_gradLinesAux (j : ℕ) (fs : List (List ℚ)) :
    DrvLine.strainHeader ∉ gradLinesAux j fs := by
  induction fs generalizing j with
  | nil => simp [gradLinesAux]
  | cons r rest ih =>
      simp [gradLinesAux]
      exact ih (j + 1)

lemma drvContent_ok (atoms : Atoms) (energy : ℚ) (forces : List (List ℚ))
    (stress : Option StressArg) (lines : List DrvLine)
    (h : drvContent atoms energy forces stress = .ok lines) :
    forcesShapeOk atoms.len forces = true ∧
    lines = [DrvLine.energyLine energy, .coordHeader atoms.len]
      ++ coordLinesAux 1 (atoms.numbers.zip atoms.positions)
      ++ [.gradHeader atoms.len]
      ++ gradLinesAux 1 forces
      ++ strainLines atoms stress := by
  unfold drvContent at h
  split at h
  · exact ⟨by assumption, (Except.ok.inj h).symm⟩
  · exact absurd h (by simp)

/-- C1: every row of the gradients section written by `write_drv` holds
exactly the negation of the corresponding force components, atom-for-atom
in input order (row k, 0-based, is indexed k+1 and equals -forces[k]). -/
theorem write_drv_gradients_negate_forces
    (atoms : Atoms) (energy : ℚ) (forces : List (List ℚ)) (stress : Option StressArg)
    (lines : List DrvLine)
    (h : drvContent atoms energy forces stress = .ok lines) :
    (gradRowsOf lines).length = forces.length ∧
    ∀ k a b c, forces.get? k = some [a, b, c] →
      (gradRowsOf lines).get? k = some (k + 1, -a, -b, -c) := by
  obtain ⟨hshape, hlines⟩ := drvContent_ok atoms energy forces stress lines h
  subst hlines
  rw [gradRowsOf_append, gradRowsOf_append, gradRowsOf_append, gradRowsOf_append]
  rw [gradRowsOf_coordLinesAux, gradRowsOf_strainLines]
  have h1 : gradRowsOf [DrvLine.energyLine energy, .coordHeader atoms.len] = [] := rfl
  have h2 : gradRowsOf [DrvLine.gradHeader atoms.len] = [] := rfl
  rw [h1, h2]
  constructor
  · simp [gradRowsOf_gradLinesAux_length]
  · intro k a b c hk
    have h3 := gradRowsOf_gradLinesAux_get? 1 k forces [a, b, c] hk
    rw [show 1 + k = k + 1 by omega] at h3
    simpa using h3

/-- C2: with a 6-component Voigt stress, the strain-gradient section of the
`.drv` content is exactly two rows, componentwise -stress * volume, the
first row the diagonal components (xx, yy, zz) and the second the
off-diagonals (yz, xz, xy). -/
theorem write_drv_strain_rows
    (atoms : Atoms) (energy : ℚ) (forces : List (List ℚ))
    (s0 s1 s2 s3 s4 s5 : ℚ) (lines : List DrvLine)
    (h : drvContent atoms energy forces (some (.voigt6 s0 s1 s2 s3 s4 s5)) = .ok lines) :
    strainRowsOf lines =
      [(-s0 * atoms.volume, -s1 * atoms.volume, -s2 * atoms.volume),
       (-s3 * atoms.volume, -s4 * atoms.volume, -s5 * atoms.volume)] := by
  obtain ⟨hshape, hlines⟩ := drvContent_ok _ _ _ _ _ h
  subst hlines
  rw [strainRowsOf_append, strainRowsOf_append, strainRowsOf_append, strainRowsOf_append]
  rw [strainRowsOf_coordLinesAux, strainRowsOf_gradLinesAux]
  simp [strainRowsOf, strainLines, List.filterMap_cons]

/-- C3: a forces array whose shape is not (atom count, 3) makes `write_drv`
fail with the shape-mismatch `ValueError` before the output path is opened:
the file system is returned unchanged. -/
theorem write_drv_shape_mismatch_no_write
    (fs : FS) (filepath : String) (atoms : Atoms) (energy : ℚ)
    (forces : List (List ℚ)) (stress : Option StressArg)
    (h : forcesShapeOk atoms.len forces = false) :
    write_drv fs filepath atoms energy forces stress =
      (fs, .error "Forces shape does not match number of atoms") := by
  unfold write_drv drvContent
  rw [h]
  simp

/-- C6: the `.drv` content contains a strain-gradient section (its header
line) if and only if a non-null stress argument was supplied; with a null
stress the section is omitted entirely (no strain rows either). -/
theorem strain_section_iff_stress
    (atoms : Atoms) (energy : ℚ) (forces : List (List ℚ))
    (stress : Option StressArg) (lines : List DrvLine)
    (h : drvContent atoms energy forces stress = .ok lines) :
    (DrvLine.strainHeader ∈ lines ↔ stress.isSome)
    ∧ (stress = none → strainRowsOf lines = []) := by
  obtain ⟨hshape, hlines⟩ := drvContent_ok _ _ _ _ _ h
  subst hlines
  have hcoord := strainHeader_not_mem_coordLinesAux 1 (atoms.numbers.zip atoms.positions)
  have hgrad := strainHeader_not_mem_gradLinesAux 1 forces
  have hstrain : DrvLine.strainHeader ∈ strainLines atoms stress ↔ stress.isSome := by
    cases stress with
    | none => simp [strainLines]
    | some s => cases s <;> simp [strainLines]
  constructor
  · simp [List.mem_append, hcoord, hgrad, hstrain]
  · intro hn
    subst hn
    rw [strainRowsOf_append, strainRowsOf_append, strainRowsOf_append, strainRowsOf_append]
    rw [strainRowsOf_coordLinesAux, strainRowsOf_gradLinesAux]
    rfl

/-- C10: `format_drv_string` returns exactly the content `write_drv`
produces for the same arguments (and propagates the same error when the
write fails): the string-producing and file-producing encoders agree. -/
theorem format_drv_string_eq_write_drv
    (fs : FS) (tmpPath : String) (atoms : Atoms) (energy : ℚ)
    (forces : List (List ℚ)) (stress : Option StressArg) :
    format_drv_string fs tmpPath atoms energy forces stress =
      drvContent atoms energy forces stress := by
  unfold format_drv_string write_drv
  cases h : drvContent atoms energy forces stress with
  | ok lines => simp [FS.write]
  | error m => simp

/-- Witness for C1: one atom, forces [[1, -2, 3]], gradient row (1, -1, 2, -3). -/
theorem write_drv_gradients_negate_forces_witness :
    (gradRowsOf w1Lines).length = 1 ∧ (gradRowsOf w1Lines).get? 0 = some (1, -1, 2, -3) := by
  have h := write_drv_gradients_negate_forces atomsFree (5 / 2) [[1, -2, 3]] none w1Lines
    (by norm_num [drvContent, forcesShapeOk, coordLinesAux, gradLinesAux, strainLines,
      Atoms.len, atomsFree, w1Lines])
  have h2 := h.2 0 1 (-2) 3 rfl
  exact ⟨h.1, by simpa using h2⟩

/-- Witness for C2: volume 64 Å³ (cubic 4 Å cell) and Voigt stress
(1,2,3,4,5,6)e-3 give strain-gradient rows (-0.064, -0.128, -0.192) and
(-0.256, -0.320, -0.384). -/
theorem write_drv_strain_rows_witness :
    strainRowsOf w2Lines =
      [(-(64 / 1000), -(128 / 1000), -(192 / 1000)),
       (-(256 / 1000), -(320 / 1000), -(384 / 1000))] := by
  have h := write_drv_strain_rows atomsCell4 0 [[0, 0, 0]]
    (1 / 1000) (2 / 1000) (3 / 1000) (4 / 1000) (5 / 1000) (6 / 1000) w2Lines
    (by norm_num [drvContent, forcesShapeOk, coordLinesAux, gradLinesAux, strainLines,
      Atoms.len, Atoms.volume, Mat3.det, atomsCell4, w2Lines])
  rw [h]
  norm_num [atomsCell4, Atoms.volume, Mat3.det]

/-- Witness for C3: an empty forces list against a one-atom structure is
rejected and the file system is untouched. -/
theorem write_drv_shape_mismatch_no_write_witness :
    write_drv fsEmpty "output.drv" atomsFree 0 [] none =
      (fsEmpty, .error "Forces shape does not match number of atoms") :=
  write_drv_shape_mismatch_no_write fsEmpty "output.drv" atomsFree 0 [] none
    (by norm_num [forcesShapeOk, Atoms.len, atomsFree])

/-- Witness for C6: with the concrete non-null stress of the volume-64
scenario the strain-gradient header is present in the output. -/
theorem strain_section_iff_stress_witness : DrvLine.strainHeader ∈ w2Lines := by
  have h := strain_section_iff_stress atomsCell4 0 [[0, 0, 0]]
    (some (.voigt6 (1 / 1000) (2 / 1000) (3 / 1000) (4 / 1000) (5 / 1000) (6 / 1000))) w2Lines
    (by norm_num [drvContent, forcesShapeOk, coordLinesAux, gradLinesAux, strainLines,
      Atoms.len, Atoms.volume, Mat3.det, atomsCell4, w2Lines])
  exact h.1.mpr rfl

/-! ## Backend lemmas -/

lemma gfnff_load_ok_loaded (av : Bool) (s s' : GFNFFBackend)
    (h : GFNFFBackend.load av s = .ok s') : s'.loaded = true := by
  unfold GFNFFBackend.load at h
  by_cases hl : s.loaded = true
  · simp [hl] at h
    exact h ▸ hl
  · have hl' : s.loaded = false := by simpa using hl
    simp [hl'] at h
    by_cases ha : av = true
    · simp [ha] at h
      subst h
      rfl
    · have ha' : av = false := by simpa using ha
      simp [ha'] at h

lemma gulp_load_ok_loaded (env : GulpEnv) (s s' : GULPBackend)
    (h : GULPBackend.load env s = .ok s') : s'.loaded = true := by
  unfold GULPBackend.load at h
  by_cases hl : s.loaded = true
  · simp [hl] at h
    exact h ▸ hl
  · have hl' : s.loaded = false := by simpa using hl
    simp [hl'] at h
    by_cases hg : env.gulpOnPath = true
    · simp [hg] at h
      by_cases hd : env.drvCalculatorFileExists = true
      · simp [hd] at h
        subst h
        rfl
      · have hd' : env.drvCalculatorFileExists = false := by simpa using hd
        simp [hd'] at h
    · have hg' : env.gulpOnPath = false := by simpa using hg
      simp [hg'] at h

lemma petmad_load_ok_calculator (pa pc : Bool) (s s' : PETMADBackend)
    (h : PETMADBackend.load pa pc s = .ok s') : s'.calculator = some s.alloc := by
  unfold PETMADBackend.load at h
  by_cases hpa : pa = true
  · simp [hpa] at h
    by_cases hpc : pc = true
    · simp [hpc] at h
      subst h
      rfl
    · have hpc' : pc = false := by simpa using hpc
      simp [hpc'] at h
  · have hpa' : pa = false := by simpa using hpa
    simp [hpa'] at h

lemma baseCalculate_some_ne_notLoaded (n : ℕ) (oracle : Oracle) (atoms : Atoms)
    (props : List String) (m : String) :
    baseCalculate (some n) oracle atoms props ≠ .error (.notLoaded m) := by
  intro h
  by_cases h1 : "stress" ∈ props
  · by_cases h2 : atoms.anyPbc = true
    · cases h3 : oracle.stress atoms with
      | ok s => simp [baseCalculate, h1, h2, h3] at h
      | error m2 => simp [baseCalculate, h1, h2, h3] at h
    · simp [baseCalculate, h1, h2] at h
  · simp [baseCalculate, h1] at h

/-- C7: for every backend variant, `calculate` before a successful `load`
fails with the not-loaded `RuntimeError` (for any oracle, so no
computation is attempted), and after a successful `load` the not-loaded
error branch is unreachable. -/
theorem backend_calculate_requires_load
    (oracle : Oracle) (atoms : Atoms) (properties : List String)
    (properties2 : Option (List String))
    (g : GFNFFBackend) (hg : g.loaded = false)
    (u : GULPBackend) (hu : u.loaded = false)
    (av : Bool) (g0 g1 : GFNFFBackend) (hgl : GFNFFBackend.load av g0 = .ok g1)
    (env : GulpEnv) (u0 u1 : GULPBackend) (hul : GULPBackend.load env u0 = .ok u1)
    (pa pc : Bool) (p0 p1 : PETMADBackend) (hpl : PETMADBackend.load pa pc p0 = .ok p1) :
    baseCalculate none oracle atoms properties = .error (.notLoaded baseNotLoadedMsg)
    ∧ g.calculate oracle atoms properties2 = .error (.notLoaded backendNotLoadedMsg)
    ∧ u.calculate oracle atoms properties2 = .error (.notLoaded backendNotLoadedMsg)
    ∧ (∀ m, g1.calculate oracle atoms properties2 ≠ .error (.notLoaded m))
    ∧ (∀ m, u1.calculate oracle atoms properties2 ≠ .error (.notLoaded m))
    ∧ (∀ m, baseCalculate p1.calculator oracle atoms properties ≠ .error (.notLoaded m)) := by
  refine ⟨rfl, by simp [GFNFFBackend.calculate, hg], by simp [GULPBackend.calculate, hu],
    ?_, ?_, ?_⟩
  · have hl := gfnff_load_ok_loaded av g0 g1 hgl
    intro m hc
    simp [GFNFFBackend.calculate, hl] at hc
  · have hl := gulp_load_ok_loaded env u0 u1 hul
    intro m hc
    simp [GULPBackend.calculate, hl] at hc
  · have hc := petmad_load_ok_calculator pa pc p0 p1 hpl
    rw [hc]
    exact fun m => baseCalculate_some_ne_notLoaded p0.alloc oracle atoms properties m

/-- Witness for C7 at concrete backends, structures and oracles. -/
theorem backend_calculate_requires_load_witness :
    baseCalculate none oracleZero atomsFree ["energy"] =
      .error (.notLoaded baseNotLoadedMsg)
    ∧ GFNFFBackend.calculate ⟨"GFN-FF", false, none, 0⟩ oracleZero atomsFree none =
      .error (.notLoaded backendNotLoadedMsg)
    ∧ GULPBackend.calculate ⟨"conp gradient", false, none, none, 0⟩ oracleZero atomsFree none =
      .error (.notLoaded backendNotLoadedMsg)
    ∧ (∀ m, GFNFFBackend.calculate ⟨"GFN-FF", true, some 0, 1⟩ oracleZero atomsFree none ≠
        .error (.notLoaded m))
    ∧ (∀ m, GULPBackend.calculate ⟨"conp gradient", true, some 0, some 1, 2⟩ oracleZero
        atomsFree none ≠ .error (.notLoaded m))
    ∧ (∀ m, baseCalculate petmad1.calculator oracleZero atomsFree ["energy"] ≠
        .error (.notLoaded m)) :=
  backend_calculate_requires_load oracleZero atomsFree ["energy"] none
    ⟨"GFN-FF", false, none, 0⟩ rfl
    ⟨"conp gradient", false, none, none, 0⟩ rfl
    true ⟨"GFN-FF", false, none, 0⟩ ⟨"GFN-FF", true, some 0, 1⟩ (by rfl)
    ⟨true, true⟩ ⟨"conp gradient", false, none, none, 0⟩
    ⟨"conp gradient", true, some 0, some 1, 2⟩ (by rfl)
    true true petmad0 petmad1 (by rfl)

/-- C5 counterexample: the GFN-FF variant, loaded, given a non-periodic
structure with "stress" among the requested properties, returns a result
whose stress entry is a zero six-vector (not absent), with no
stress-computation failure involved — refuting the claim that stress is
absent whenever the structure is not periodic. -/
theorem gfnff_stress_zero_for_nonperiodic :
    GFNFFBackend.calculate gfnffLoaded oracleZero atomsFree (some ["energy", "stress"]) =
      .ok ⟨some 0, none, .val zeros6⟩
    ∧ atomsFree.anyPbc = false
    ∧ SEntry.val zeros6 ≠ SEntry.absent := by
  refine ⟨?_, rfl, by simp⟩
  simp [GFNFFBackend.calculate, gfnffLoaded, oracleZero, atomsFree, Atoms.anyPbc]

/-- C5 (amended): in the base variant (used by the PET-MAD and FairChem
backends) the result carries a computed stress value iff "stress" is
requested and the structure is periodic; when "stress" is requested for a
non-periodic structure the entry is present with a null value; when not
requested it is absent. The GFN-FF variant substitutes a zero six-vector
whenever "stress" is requested for a non-periodic structure, and the GULP
variant does so whenever the structure is non-periodic or its keywords do
not contain "stress". -/
theorem stress_entry_behavior
    (oracle : Oracle) (atoms : Atoms) (props : List String) (cal : ℕ)
    (g : GFNFFBackend) (hg : g.loaded = true)
    (u : GULPBackend) (hu : u.loaded = true) :
    ("stress" ∈ props → atoms.anyPbc = true → ∀ s, oracle.stress atoms = .ok s →
      stressOf (baseCalculate (some cal) oracle atoms props) = some (.val s))
    ∧ ("stress" ∈ props → atoms.anyPbc = false →
      stressOf (baseCalculate (some cal) oracle atoms props) = some .nullVal)
    ∧ ("stress" ∉ props →
      stressOf (baseCalculate (some cal) oracle atoms props) = some .absent)
    ∧ ("stress" ∈ props → atoms.anyPbc = true → ∀ s, oracle.stress atoms = .ok s →
      stressOf (g.calculate oracle atoms (some props)) = some (.val s))
    ∧ ("stress" ∈ props → atoms.anyPbc = false →
      stressOf (g.calculate oracle atoms (some props)) = some (.val zeros6))
    ∧ ("stress" ∉ props →
      stressOf (g.calculate oracle atoms (some props)) = some .absent)
    ∧ ("stress" ∈ props → (atoms.anyPbc && keywordsHasStress u.keywords) = false →
      stressOf (u.calculate oracle atoms (some props)) = some (.val zeros6)) := by
  refine ⟨?_, ?_, ?_, ?_, ?_, ?_, ?_⟩
  · intro h1 h2 s h3
    simp [stressOf, baseCalculate, h1, h2, h3]
  · intro h1 h2
    simp [stressOf, baseCalculate, h1, h2]
  · intro h1
    simp [stressOf, baseCalculate, h1]
  · intro h1 h2 s h3
    simp [stressOf, GFNFFBackend.calculate, hg, h1, h2, h3]
  · intro h1 h2
    simp [stressOf, GFNFFBackend.calculate, hg, h1, h2]
  · intro h1
    simp [stressOf, GFNFFBackend.calculate, hg, h1]
  · intro h1 h2
    simp [stressOf, GULPBackend.calculate, hu, h1, h2]

/-- Witness for C5 (amended): "stress" requested for the non-periodic
single-atom structure yields a null entry from the base variant. -/
theorem stress_entry_behavior_witness :
    stressOf (baseCalculate (some 0) oracleZero atomsFree ["stress"]) =
      some SEntry.nullVal :=
  (stress_entry_behavior oracleZero atomsFree ["stress"] 0
    gfnffLoaded rfl gulpLoaded rfl).2.1 (by simp) rfl

/-- C8 counterexample: one successful `load()` of the PET-MAD backend
yields a loaded state, but a second `load()` on that state is not a no-op:
it constructs and stores a fresh calculator, changing the state. -/
theorem petmad_load_not_idempotent :
    PETMADBackend.load true true petmad0 = .ok petmad1
    ∧ petmad1.calculator.isSome = true
    ∧ PETMADBackend.load true true petmad1 ≠ .ok petmad1 := by
  refine ⟨rfl, rfl, ?_⟩
  intro h
  simp [PETMADBackend.load, petmad1] at h

/-- C8 (amended): the GFN-FF and GULP variants' `load()` is idempotent — a
second call on an already-loaded instance returns the state unchanged and
is not an error — while the PET-MAD variant's `load()` re-runs
initialization on every call, replacing the stored calculator with a
freshly constructed one (not an error, but not a no-op). -/
theorem load_idempotency
    (av : Bool) (g : GFNFFBackend) (hg : g.loaded = true)
    (env : GulpEnv) (u : GULPBackend) (hu : u.loaded = true)
    (p : PETMADBackend) :
    GFNFFBackend.load av g = .ok g
    ∧ GULPBackend.load env u = .ok u
    ∧ PETMADBackend.load true true p =
        .ok { p with calculator := some p.alloc, alloc := p.alloc + 1 } := by
  refine ⟨?_, ?_, ?_⟩
  · simp [GFNFFBackend.load, hg]
  · simp [GULPBackend.load, hu]
  · simp [PETMADBackend.load]

/-- Witness for C8 (amended) at concrete loaded backends. -/
theorem load_idempotency_witness :
    GFNFFBackend.load true gfnffLoaded = .ok gfnffLoaded
    ∧ GULPBackend.load ⟨true, true⟩ gulpLoaded = .ok gulpLoaded
    ∧ PETMADBackend.load true true petmad1 = .ok ⟨"latest", "cpu", some 1, 2⟩ :=
  load_idempotency true gfnffLoaded rfl ⟨true, true⟩ gulpLoaded rfl petmad1

/-- C9: when the request carries a cell but no explicit pbc field, the
handler builds the structure with all three periodicity flags true; when
pbc is explicitly supplied it is used as given. -/
theorem host_pbc_default (symToZ : String → ℕ) (r : AtomicStructure) :
    (r.cell.isSome = true → r.pbc = none →
      (buildAtoms symToZ r).pbc = (true, true, true))
    ∧ (∀ p, r.pbc = some p → (buildAtoms symToZ r).pbc = p) := by
  constructor
  · intro hc hp
    simp [buildAtoms, hp, hc]
  · intro p hp
    simp [buildAtoms, hp]

/-- Witness for C9: a cell-only request gets pbc (true, true, true); an
explicit pbc (false, true, false) is preserved. -/
theorem host_pbc_default_witness :
    (buildAtoms (fun _ => 14) reqCellOnly).pbc = (true, true, true)
    ∧ (buildAtoms (fun _ => 14) reqExplicitPbc).pbc = (false, true, false) :=
  ⟨(host_pbc_default (fun _ => 14) reqCellOnly).1 rfl rfl,
   (host_pbc_default (fun _ => 14) reqExplicitPbc).2 (false, true, false) rfl⟩

end GulpMlips
